import Mathlib

/-!
Shallow embedding of `src/python/ray/data/_internal/logical/operators/one_to_one_operator.py`.

The file under verification defines `AbstractOneToOne` (a `LogicalOperator` with one
upstream dependency) and the concrete `Limit` operator.  The base class
`LogicalOperator` and the value types `BlockMetadata` / `Schema` live outside the
sources given here, so they are modelled from the spec: a `BlockMetadata` is an
immutable record of optional estimates, a `Schema` is an opaque immutable value, and a
base `LogicalOperator` stores a name, an ordered dependency list and an optional
output-partition count, and answers `infer_metadata` / `infer_schema` as a pure
function of its structure.

Python exceptions (failing `assert` statements, `IndexError` from `deps[0]` on an
empty list) are modelled by `Option`: `none` is a raised exception, `some v` is a
normal return of `v`.  Python `None` values inside a normal return are an inner
`Option` (so `_num_rows`, which returns `Optional[int]` and may also raise, has type
`Option (Option Int)`).
-/

/-- Modelled from the spec: `exec_stats` is an opaque optional record; its contents
are irrelevant to this core, only presence/absence matters. -/
structure ExecStats where
  wall_time_s : Int
deriving DecidableEq, Repr

/-- Modelled from the spec: `BlockMetadata` (from `ray.data.block`, outside src/) is
an immutable record with optional row count, optional byte size, optional list of
input files, and optional execution statistics. -/
structure BlockMetadata where
  num_rows : Option Int
  size_bytes : Option Int
  input_files : Option (List String)
  exec_stats : Option ExecStats
deriving DecidableEq, Repr

/-- Modelled from the spec: `Schema` (from `ray.data.block`, outside src/) is an
opaque immutable value; Limit only passes it through unchanged, so any carrier with
decidable equality is faithful. -/
structure Schema where
  columns : List String
deriving DecidableEq, Repr

/-- The operator DAG.  `base` is modelled from the spec: an arbitrary upstream
`LogicalOperator` (outside src/) whose `infer_metadata` / `infer_schema` are pure
functions of its structure, here recorded as fields.  `limitOp` is the stored state
of a `Limit` instance: the name, the `_input_dependencies` list, the `_num_outputs`
value and the `_limit` bound.  The dependency list is an arbitrary list (not forced
to length one) because a misconstructed subtype can hold any list, which is exactly
the situation the arity assertions guard against. -/
inductive LogicalOperator : Type where
  | base (name : String) (deps : List LogicalOperator) (num_outputs : Option Nat)
      (meta : BlockMetadata) (schema : Option Schema)
  | limitOp (name : String) (deps : List LogicalOperator) (num_outputs : Option Nat)
      (lim : Int)

/-- The `_input_dependencies` list stored by `LogicalOperator.__init__`. -/
def LogicalOperator.input_dependencies : LogicalOperator → List LogicalOperator
  | .base _ deps _ _ _ => deps
  | .limitOp _ deps _ _ => deps

/-- The `_name` stored by `LogicalOperator.__init__`. -/
def LogicalOperator.opName : LogicalOperator → String
  | .base n _ _ _ _ => n
  | .limitOp n _ _ _ => n

/-- The `_num_outputs` stored by `LogicalOperator.__init__`. -/
def LogicalOperator.num_outputs : LogicalOperator → Option Nat
  | .base _ _ no _ _ => no
  | .limitOp _ _ no _ => no

/-- `AbstractOneToOne.input_dependency`: `return self._input_dependencies[0]`.
There is no assertion in the source; Python `[0]` raises `IndexError` (here `none`)
on an empty list and returns the first element of any non-empty list. -/
def LogicalOperator.input_dependency (op : LogicalOperator) : Option LogicalOperator :=
  op.input_dependencies[0]?

/-- `AbstractOneToOne.__init__`: `super().__init__(name, [input_op] if input_op else [], num_outputs)`.
The truthiness test `if input_op` distinguishes `None` (falsy) from an operator
instance (truthy by Python default, since the base class defines no `__bool__` or
`__len__`; modelled from the spec, which states that an absent input yields an empty
dependency sequence and a present one yields a singleton). -/
def AbstractOneToOne.init_deps (input_op : Option LogicalOperator) : List LogicalOperator :=
  match input_op with
  | some op => [op]
  | none => []

/-- `Limit.__init__`: `super().__init__(f"limit={limit}", input_op)`; `num_outputs`
is not passed, so the base default `None` applies, and `self._limit = limit`. -/
def Limit.init (input_op : LogicalOperator) (limit : Int) : LogicalOperator :=
  .limitOp ("limit=" ++ toString limit) (AbstractOneToOne.init_deps (some input_op))
    none limit

/-- `Limit.can_modify_num_rows`: `return True`.  The abstract base leaves the method
unimplemented (`...`), hence `none` for `base` nodes. -/
def can_modify_num_rows : LogicalOperator → Option Bool
  | .base _ _ _ _ _ => none
  | .limitOp _ _ _ _ => some true

/-- `infer_metadata`.  For a spec-modelled `base` node this returns its recorded
metadata.  For a `Limit` node this is `Limit.infer_metadata`, which builds
`BlockMetadata(num_rows=self._num_rows(), size_bytes=None, input_files=self._input_files(), exec_stats=None)`;
`_num_rows` and `_input_files` each assert `len(self._input_dependencies) == 1`
(raising on any other length, modelled by the catch-all `none` branch) and query
`self._input_dependencies[0].infer_metadata()`:
`_num_rows` returns `min(input_rows, self._limit)` when the upstream `num_rows` is
not `None` and `None` otherwise; `_input_files` returns the upstream `input_files`
verbatim.  An exception from the upstream call propagates (`none`). -/
def LogicalOperator.infer_metadata : LogicalOperator → Option BlockMetadata
  | .base _ _ _ meta _ => some meta
  | .limitOp _ deps _ lim =>
    match deps with
    | [d] =>
      match d.infer_metadata with
      | some m =>
        some ⟨(match m.num_rows with
               | some input_rows => some (min input_rows lim)
               | none => none),
              none, m.input_files, none⟩
      | none => none
    | _ => none

/-- `infer_schema`.  For a spec-modelled `base` node this returns its recorded
schema (an `Optional[Schema]`, hence the inner `Option`).  `Limit.infer_schema`
asserts `len(self._input_dependencies) == 1` and returns
`self._input_dependencies[0].infer_schema()` unchanged. -/
def LogicalOperator.infer_schema : LogicalOperator → Option (Option Schema)
  | .base _ _ _ _ sch => some sch
  | .limitOp _ deps _ _ =>
    match deps with
    | [d] => d.infer_schema
    | _ => none

/-- A concrete upstream operator used by the closed witness theorems: reports
1000 rows, 4096 bytes, two input files and a one-column schema. -/
def sampleUpstream : LogicalOperator :=
  .base "read" [] none ⟨some 1000, some 4096, some ["a.parquet", "b.parquet"], none⟩
    (some ⟨["col"]⟩)

/-- A concrete upstream operator whose row count and schema are unknown. -/
def unknownUpstream : LogicalOperator :=
  .base "stream" [] none ⟨none, none, some ["s.bin"], none⟩ none

/-- A misconstructed one-to-one node holding two dependencies. -/
def twoDepOp : LogicalOperator :=
  .limitOp "limit=7" [sampleUpstream, unknownUpstream] none 7

/-- A misconstructed one-to-one node holding zero dependencies. -/
def zeroDepOp : LogicalOperator :=
  .limitOp "limit=7" [] none 7

/-- C1: for every Limit operator whose single upstream dependency's inferred
metadata reports a known row count `r`, and every limit `L ≥ 0`,
`Limit(L).infer_metadata()` returns a metadata value whose `num_rows` equals
`min(r, L)`. -/
theorem C1_limit_num_rows_known (d : LogicalOperator) (L : Int) (m : BlockMetadata)
    (r : Int) (hm : d.infer_metadata = some m) (hr : m.num_rows = some r)
    (hL : 0 ≤ L) :
    ∃ m2, (Limit.init d L).infer_metadata = some m2 ∧ m2.num_rows = some (min r L) := by
  refine ⟨⟨some (min r L), none, m.input_files, none⟩, ?_, rfl⟩
  simp [Limit.init, AbstractOneToOne.init_deps, LogicalOperator.infer_metadata, hm, hr]

/-- C1 witness: upstream with 1000 known rows, limit 100. -/
theorem C1_limit_num_rows_known_witness :
    ∃ m2, (Limit.init sampleUpstream 100).infer_metadata = some m2 ∧
      m2.num_rows = some (min 1000 100) :=
  C1_limit_num_rows_known sampleUpstream 100
    ⟨some 1000, some 4096, some ["a.parquet", "b.parquet"], none⟩ 1000
    (by simp [sampleUpstream, LogicalOperator.infer_metadata]) rfl (by decide)

/-- C2: for every Limit operator whose upstream metadata reports an unknown row
count, `infer_metadata()` returns a metadata value whose `num_rows` is unknown,
regardless of the limit `L`; in particular it is never defaulted to `L`. -/
theorem C2_limit_num_rows_unknown (d : LogicalOperator) (L : Int) (m : BlockMetadata)
    (hm : d.infer_metadata = some m) (hr : m.num_rows = none) :
    ∃ m2, (Limit.init d L).infer_metadata = some m2 ∧ m2.num_rows = none ∧
      m2.num_rows ≠ some L := by
  refine ⟨⟨none, none, m.input_files, none⟩, ?_, rfl, by simp⟩
  simp [Limit.init, AbstractOneToOne.init_deps, LogicalOperator.infer_metadata, hm, hr]

/-- C2 witness: upstream with unknown row count, limit 100. -/
theorem C2_limit_num_rows_unknown_witness :
    ∃ m2, (Limit.init unknownUpstream 100).infer_metadata = some m2 ∧
      m2.num_rows = none ∧ m2.num_rows ≠ some 100 :=
  C2_limit_num_rows_unknown unknownUpstream 100 ⟨none, none, some ["s.bin"], none⟩
    (by simp [unknownUpstream, LogicalOperator.infer_metadata]) rfl

/-- C3 counterexample: a one-to-one node with two dependencies does not fail on
`input_dependency`; it silently returns the first of the two dependencies, so the
claim that any arity other than one fails loudly is false on the code. -/
theorem C3_input_dependency_counterexample :
    twoDepOp.input_dependencies.length ≠ 1 ∧
      twoDepOp.input_dependency = some sampleUpstream ∧
      twoDepOp.input_dependency ≠ none := by
  refine ⟨by simp [twoDepOp, LogicalOperator.input_dependencies], ?_, ?_⟩ <;>
    simp [twoDepOp, LogicalOperator.input_dependency, LogicalOperator.input_dependencies]

/-- C3 amended: `input_dependency` performs no arity assertion.  With zero
dependencies it fails (IndexError from indexing an empty list); with one or more
dependencies it does not fail and returns the first dependency — in particular,
with more than one dependency it silently returns the first. -/
theorem C3_input_dependency_amended (op : LogicalOperator) :
    (op.input_dependencies = [] → op.input_dependency = none) ∧
      (∀ d rest, op.input_dependencies = d :: rest → op.input_dependency = some d) := by
  constructor
  · intro h
    simp [LogicalOperator.input_dependency, h]
  · intro d rest h
    simp [LogicalOperator.input_dependency, h]

/-- C3 amended witness: zero dependencies fail; two dependencies return the first. -/
theorem C3_input_dependency_amended_witness :
    zeroDepOp.input_dependency = none ∧ twoDepOp.input_dependency = some sampleUpstream :=
  ⟨(C3_input_dependency_amended zeroDepOp).1
      (by simp [zeroDepOp, LogicalOperator.input_dependencies]),
   (C3_input_dependency_amended twoDepOp).2 sampleUpstream [unknownUpstream]
      (by simp [twoDepOp, LogicalOperator.input_dependencies])⟩

/-- C4: constructing a one-to-one operator with an absent input yields an empty
dependency sequence; with a present input the dependency sequence has length
exactly 1 and `input_dependency` returns that same operator. -/
theorem C4_one_to_one_construction (input_op : LogicalOperator) (L : Int) :
    AbstractOneToOne.init_deps none = [] ∧
      AbstractOneToOne.init_deps (some input_op) = [input_op] ∧
      (Limit.init input_op L).input_dependencies = [input_op] ∧
      (Limit.init input_op L).input_dependency = some input_op := by
  refine ⟨rfl, rfl, rfl, ?_⟩
  simp [Limit.init, AbstractOneToOne.init_deps, LogicalOperator.input_dependency,
    LogicalOperator.input_dependencies]

/-- C5: `Limit.infer_schema` returns exactly the upstream operator's
`infer_schema`, for both present and absent schema (identity pass-through). -/
theorem C5_limit_infer_schema_passthrough (d : LogicalOperator) (L : Int) :
    (Limit.init d L).infer_schema = d.infer_schema := by
  simp [Limit.init, AbstractOneToOne.init_deps, LogicalOperator.infer_schema]

/-- C6: `Limit.infer_metadata` inherits `input_files` verbatim from the upstream
operator's inferred metadata. -/
theorem C6_limit_input_files_inherited (d : LogicalOperator) (L : Int)
    (m : BlockMetadata) (hm : d.infer_metadata = some m) :
    ∃ m2, (Limit.init d L).infer_metadata = some m2 ∧ m2.input_files = m.input_files := by
  refine ⟨⟨(match m.num_rows with
            | some input_rows => some (min input_rows L)
            | none => none), none, m.input_files, none⟩, ?_, rfl⟩
  simp [Limit.init, AbstractOneToOne.init_deps, LogicalOperator.infer_metadata, hm]

/-- C6 witness: upstream with two input files, limit 10. -/
theorem C6_limit_input_files_inherited_witness :
    ∃ m2, (Limit.init sampleUpstream 10).infer_metadata = some m2 ∧
      m2.input_files = some ["a.parquet", "b.parquet"] :=
  C6_limit_input_files_inherited sampleUpstream 10
    ⟨some 1000, some 4096, some ["a.parquet", "b.parquet"], none⟩
    (by simp [sampleUpstream, LogicalOperator.infer_metadata])

/-- C7: any metadata value returned by `Limit.infer_metadata` has `size_bytes`
absent and `exec_stats` absent, irrespective of the upstream metadata. -/
theorem C7_limit_size_and_stats_absent (d : LogicalOperator) (L : Int)
    (m2 : BlockMetadata) (h : (Limit.init d L).infer_metadata = some m2) :
    m2.size_bytes = none ∧ m2.exec_stats = none := by
  revert h
  simp only [Limit.init, AbstractOneToOne.init_deps, LogicalOperator.infer_metadata]
  cases d.infer_metadata with
  | none => simp
  | some m =>
    intro h
    cases h
    exact ⟨rfl, rfl⟩

/-- C7 witness: the concrete metadata produced for `Limit(100)` over the sample
upstream has absent `size_bytes` and `exec_stats`. -/
theorem C7_limit_size_and_stats_absent_witness :
    (⟨some 100, none, some ["a.parquet", "b.parquet"], none⟩ : BlockMetadata).size_bytes
        = none ∧
      (⟨some 100, none, some ["a.parquet", "b.parquet"], none⟩ : BlockMetadata).exec_stats
        = none :=
  C7_limit_size_and_stats_absent sampleUpstream 100
    ⟨some 100, none, some ["a.parquet", "b.parquet"], none⟩
    (by simp [Limit.init, AbstractOneToOne.init_deps, LogicalOperator.infer_metadata,
      sampleUpstream])

/-- C8: `can_modify_num_rows` on any Limit operator returns `True`. -/
theorem C8_limit_can_modify_num_rows (n : String) (deps : List LogicalOperator)
    (no : Option Nat) (L : Int) :
    can_modify_num_rows (.limitOp n deps no L) = some true := rfl

/-- C9: metadata and schema inference are pure functions of the DAG structure:
two inference calls on the same unchanged DAG return equal results. -/
theorem C9_inference_deterministic (o1 o2 : LogicalOperator) (h : o1 = o2) :
    o1.infer_metadata = o2.infer_metadata ∧ o1.infer_schema = o2.infer_schema := by
  subst h
  exact ⟨rfl, rfl⟩

/-- C9 witness: repeated inference on the sample DAG agrees. -/
theorem C9_inference_deterministic_witness :
    (Limit.init sampleUpstream 100).infer_metadata
        = (Limit.init sampleUpstream 100).infer_metadata ∧
      (Limit.init sampleUpstream 100).infer_schema
        = (Limit.init sampleUpstream 100).infer_schema :=
  C9_inference_deterministic (Limit.init sampleUpstream 100)
    (Limit.init sampleUpstream 100) rfl

/-- C10: the `Limit` constructor never forwards an output-partition count, so
`num_outputs` of a constructed Limit operator is always absent. -/
theorem C10_limit_num_outputs_absent (input_op : LogicalOperator) (L : Int) :
    (Limit.init input_op L).num_outputs = none := rfl
